import Mathlib

/-!
Verification development for the pro_order backend.

The Work subsystem is embedded from `apps/work/views.py`
(`WorkListCreateView` and `WorkDetailView`): the role-scoped querysets,
`perform_create` with its staff gate and assignee defaulting, and
`perform_update` / `perform_destroy` with their permission checks and the
derived `completed_at` field.  The persistent store is a `List Work`;
machine time is an abstract `Nat` passed in as `now`.

The Like subsystem's views and serializers are not part of the sampled
sources (only `apps/like/tests.py` is), so `like_create` and
`like_destroy` are modelled from the specification's description of the
endpoints, as marked in their doc comments.
-/

namespace ProOrder

deriving instance DecidableEq for Except

/-- Work ticket status.  Modelled from the spec's state machine
`{PENDING (implied initial), …, COMPLETED, …}`; `views.py` only
discriminates on `Work.WorkStatus.COMPLETED`. -/
inductive WorkStatus where
  | pending
  | inProgress
  | completed
  | cancelled
  deriving DecidableEq, Repr

/-- A requesting user: identity plus the staff flag consulted by the views. -/
structure User where
  id : Nat
  is_staff : Bool
  deriving DecidableEq, Repr

/-- A stored Work ticket (the fields the Work views read or write). -/
structure Work where
  id : Nat
  title : String
  status : WorkStatus
  assignee : Option Nat
  completed_at : Option Nat
  deriving DecidableEq, Repr

/-- HTTP-level failures raised by the views: `permission_denied` (403) and
a missing object in the scoped queryset (404). -/
inductive HttpError where
  | forbidden
  | notFound
  deriving DecidableEq, Repr

/-- Validated data of a Work update (PUT/PATCH); `none` means the field is
absent from `serializer.validated_data`. -/
structure WorkUpdateData where
  status : Option WorkStatus
  title : Option String
  deriving DecidableEq, Repr

/-- Validated data of a Work create; `assignee = none` covers both an absent
and an explicitly null assignee (`validated_data.get("assignee") is None`). -/
structure WorkCreateData where
  title : String
  status : WorkStatus
  assignee : Option Nat
  deriving DecidableEq, Repr

/-- `WorkListCreateView.get_queryset`: staff see every ticket, non-staff
only the tickets where `assignee = request.user`. -/
def work_list_queryset (db : List Work) (u : User) : List Work :=
  if u.is_staff then db else db.filter (fun w => decide (w.assignee = some u.id))

/-- `WorkDetailView.get_queryset`: same role scoping as the list view. -/
def work_detail_queryset (db : List Work) (u : User) : List Work :=
  if u.is_staff then db else db.filter (fun w => decide (w.assignee = some u.id))

/-- `self.get_object()` on the detail view: look the pk up in the scoped
queryset; `none` is surfaced as 404. -/
def get_object (db : List Work) (u : User) (pk : Nat) : Option Work :=
  (work_detail_queryset db u).find? (fun w => decide (w.id = pk))

/-- `WorkListCreateView.perform_create`: reject non-staff with
`permission_denied`; default a missing assignee to the requesting user;
save the new ticket. -/
def perform_create (requester : User) (d : WorkCreateData) (newId : Nat) :
    Except HttpError Work :=
  if requester.is_staff = false then .error .forbidden
  else
    let assignee : Option Nat :=
      match d.assignee with
      | none => some requester.id
      | some a => some a
    .ok { id := newId, title := d.title, status := d.status,
          assignee := assignee, completed_at := none }

/-- `WorkListCreateView.create` composed with the store: append the saved
ticket on success, leave the store untouched on failure. -/
def create_work (db : List Work) (u : User) (d : WorkCreateData) (newId : Nat) :
    Except HttpError Work × List Work :=
  match perform_create u d newId with
  | .error e => (.error e, db)
  | .ok w => (.ok w, db ++ [w])

/-- `WorkDetailView.perform_update`: `permission_denied` unless the requester
is staff or the instance's assignee; then derive `completed_at` from a status
field present in the validated data (`now` when the new status is COMPLETED,
`null` for any other new status, untouched when status is absent) and save
the merged instance. -/
def perform_update (requester : User) (inst : Work) (d : WorkUpdateData)
    (now : Nat) : Except HttpError Work :=
  if requester.is_staff = false ∧ inst.assignee ≠ some requester.id then
    .error .forbidden
  else
    let ca : Option Nat :=
      match d.status with
      | some s => if s = WorkStatus.completed then some now else none
      | none => inst.completed_at
    .ok { inst with
          title := d.title.getD inst.title,
          status := d.status.getD inst.status,
          completed_at := ca }

/-- `WorkDetailView.update` composed with the store: 404 when the pk is not
in the scoped queryset, otherwise `perform_update`; the stored ticket is
replaced only on success. -/
def update_work (db : List Work) (u : User) (pk : Nat) (d : WorkUpdateData)
    (now : Nat) : Except HttpError Work × List Work :=
  match get_object db u pk with
  | none => (.error .notFound, db)
  | some w =>
    match perform_update u w d now with
    | .error e => (.error e, db)
    | .ok w' => (.ok w', db.map (fun x => if x.id = pk then w' else x))

/-- `WorkDetailView.perform_destroy`: `permission_denied` unless the requester
is staff or the instance's assignee; otherwise delete the instance. -/
def perform_destroy (requester : User) (inst : Work) (db : List Work) :
    Except HttpError (List Work) :=
  if requester.is_staff = false ∧ inst.assignee ≠ some requester.id then
    .error .forbidden
  else .ok (db.filter (fun x => decide (x.id ≠ inst.id)))

/-- `WorkDetailView.destroy` composed with the store: 404 when the pk is not
in the scoped queryset, otherwise `perform_destroy`. -/
def destroy_work (db : List Work) (u : User) (pk : Nat) :
    Except HttpError Unit × List Work :=
  match get_object db u pk with
  | none => (.error .notFound, db)
  | some w =>
    match perform_destroy u w db with
    | .error e => (.error e, db)
    | .ok db' => (.ok (), db')

/-- `WorkDetailView.get` (retrieve): the object from the scoped queryset,
or 404. -/
def retrieve_work (db : List Work) (u : User) (pk : Nat) :
    Except HttpError Work :=
  match get_object db u pk with
  | none => .error .notFound
  | some w => .ok w

/-- The spec's Work invariant: `completed_at` set iff status = COMPLETED. -/
def completed_at_invariant (w : Work) : Prop :=
  w.completed_at ≠ none ↔ w.status = WorkStatus.completed

instance (w : Work) : Decidable (completed_at_invariant w) := by
  unfold completed_at_invariant; infer_instance

/-- A stored Like: owner plus the polymorphic target
(content type id, object id). -/
structure Like where
  id : Nat
  user : Nat
  content_type : Nat
  object_id : Nat
  deriving DecidableEq, Repr

/-- Outcome of a Like create: 201 with the record and the derived
human-readable content-type name, or 400 with a message. -/
inductive LikeCreateResult where
  | created (l : Like) (content_type_name : String)
  | badRequest (message : String)
  deriving DecidableEq, Repr

/-- HTTP status code of a Like create outcome. -/
def likeCreateStatus : LikeCreateResult → Nat
  | .created _ _ => 201
  | .badRequest _ => 400

/-- Modelled from the spec: the Like create view and serializer are missing
from the sampled sources (only `apps/like/tests.py` is present).  Per the
spec, create validates that no existing Like matches
(user, content_type, object_id); a violation yields 400 with the message
"You have already liked this item."; success yields 201 with the created
record including a derived human-readable content-type name
(`ctName` stands for the content-type → name lookup). -/
def like_create (ctName : Nat → String) (db : List Like)
    (u ct oid newId : Nat) : LikeCreateResult × List Like :=
  if db.any (fun l => decide (l.user = u ∧ l.content_type = ct ∧ l.object_id = oid)) then
    (.badRequest "You have already liked this item.", db)
  else
    let l : Like := ⟨newId, u, ct, oid⟩
    ((.created l (ctName ct)), db ++ [l])

/-- Number of stored Like records for a given (user, content_type, object_id). -/
def countLikes (db : List Like) (u ct oid : Nat) : Nat :=
  (db.filter (fun l => decide (l.user = u ∧ l.content_type = ct ∧ l.object_id = oid))).length

/-- Outcome of a Like destroy: 204, 403 or 404. -/
inductive LikeDestroyResult where
  | noContent
  | forbidden
  | notFound
  deriving DecidableEq, Repr

/-- HTTP status code of a Like destroy outcome. -/
def likeDestroyStatus : LikeDestroyResult → Nat
  | .noContent => 204
  | .forbidden => 403
  | .notFound => 404

/-- Modelled from the spec: the Like destroy view is missing from the sampled
sources (only `apps/like/tests.py` is present).  Per the spec, only the
like's owner may delete; any other authenticated user receives 403 and the
record is preserved; a missing record yields 404; success yields 204 and
removes the like. -/
def like_destroy (db : List Like) (u pk : Nat) :
    LikeDestroyResult × List Like :=
  match db.find? (fun l => decide (l.id = pk)) with
  | none => (.notFound, db)
  | some l =>
    if l.user ≠ u then (.forbidden, db)
    else (.noContent, db.filter (fun x => decide (x.id ≠ pk)))

/-! ### Theorems -/

/-- C1: on every Work update whose validated data includes a status field,
the saved record's `completed_at` is `now` when the new status is COMPLETED
and `null` for any other new status, regardless of the previous status. -/
theorem c1_update_derives_completed_at
    (u : User) (w w' : Work) (d : WorkUpdateData) (now : Nat) (s : WorkStatus)
    (hs : d.status = some s)
    (h : perform_update u w d now = .ok w') :
    (s = WorkStatus.completed → w'.completed_at = some now) ∧
    (s ≠ WorkStatus.completed → w'.completed_at = none) := by
  unfold perform_update at h
  split at h
  · simp at h
  · simp only [hs, Except.ok.injEq] at h
    subst h
    constructor
    · intro hsc; simp [hsc]
    · intro hsc; simp [hsc]

theorem c1_witness :
    (WorkStatus.completed = WorkStatus.completed →
      (⟨7, "t", WorkStatus.completed, some 1, some 5⟩ : Work).completed_at = some 5) ∧
    (WorkStatus.completed ≠ WorkStatus.completed →
      (⟨7, "t", WorkStatus.completed, some 1, some 5⟩ : Work).completed_at = none) :=
  c1_update_derives_completed_at ⟨1, true⟩ ⟨7, "t", WorkStatus.pending, some 1, none⟩
    ⟨7, "t", WorkStatus.completed, some 1, some 5⟩ ⟨some WorkStatus.completed, none⟩ 5
    WorkStatus.completed rfl (by decide)

/-- C4: the invariant `completed_at` set iff status = COMPLETED is preserved
by every successful Work update. -/
theorem c4_invariant_preserved_by_update
    (u : User) (w w' : Work) (d : WorkUpdateData) (now : Nat)
    (hw : completed_at_invariant w)
    (h : perform_update u w d now = .ok w') :
    completed_at_invariant w' := by
  unfold perform_update at h
  split at h
  · simp at h
  · simp only [Except.ok.injEq] at h
    subst h
    unfold completed_at_invariant at hw ⊢
    cases hds : d.status with
    | none => simpa [hds] using hw
    | some s =>
      by_cases hsc : s = WorkStatus.completed <;> simp [hds, hsc]

theorem c4_witness :
    completed_at_invariant ⟨7, "t", WorkStatus.pending, some 1, none⟩ ∧
    completed_at_invariant ⟨7, "t", WorkStatus.completed, some 1, some 5⟩ :=
  ⟨by decide,
    c4_invariant_preserved_by_update ⟨1, true⟩
      ⟨7, "t", WorkStatus.pending, some 1, none⟩
      ⟨7, "t", WorkStatus.completed, some 1, some 5⟩
      ⟨some WorkStatus.completed, none⟩ 5 (by decide) (by decide)⟩

/-- C5: Work creation is restricted to staff: a non-staff requester gets
403 and the store is unchanged. -/
theorem c5_create_requires_staff
    (db : List Work) (u : User) (d : WorkCreateData) (newId : Nat)
    (h : u.is_staff = false) :
    create_work db u d newId = (.error .forbidden, db) := by
  unfold create_work perform_create
  simp [h]

theorem c5_witness :
    create_work [] ⟨1, false⟩ ⟨"t", WorkStatus.pending, none⟩ 1 =
      (.error .forbidden, []) :=
  c5_create_requires_staff [] ⟨1, false⟩ ⟨"t", WorkStatus.pending, none⟩ 1 rfl

/-- C6: on a staff create with no assignee given, the created Work's
assignee is the requesting staff user; a given assignee is kept. -/
theorem c6_assignee_defaults_to_creator
    (u : User) (d : WorkCreateData) (newId : Nat) (h : u.is_staff = true) :
    (d.assignee = none →
      perform_create u d newId =
        .ok ⟨newId, d.title, d.status, some u.id, none⟩) ∧
    (∀ a, d.assignee = some a →
      perform_create u d newId =
        .ok ⟨newId, d.title, d.status, some a, none⟩) := by
  unfold perform_create
  constructor
  · intro ha; simp [h, ha]
  · intro a ha; simp [h, ha]

theorem c6_witness :
    perform_create ⟨3, true⟩ ⟨"t", WorkStatus.pending, none⟩ 9 =
      .ok ⟨9, "t", WorkStatus.pending, some 3, none⟩ :=
  (c6_assignee_defaults_to_creator ⟨3, true⟩ ⟨"t", WorkStatus.pending, none⟩ 9 rfl).1 rfl

/-- C10: every Work produced by a successful create has a non-null
assignee. -/
theorem c10_created_assignee_nonnull
    (u : User) (d : WorkCreateData) (newId : Nat) (w : Work)
    (h : perform_create u d newId = .ok w) :
    w.assignee ≠ none := by
  unfold perform_create at h
  split at h
  · simp at h
  · cases hda : d.assignee <;>
      simp only [hda, Except.ok.injEq] at h <;> subst h <;> simp

theorem c10_witness :
    (⟨9, "t", WorkStatus.pending, some 3, none⟩ : Work).assignee ≠ none :=
  c10_created_assignee_nonnull ⟨3, true⟩ ⟨"t", WorkStatus.pending, none⟩ 9
    ⟨9, "t", WorkStatus.pending, some 3, none⟩ (by decide)

/-- C7: the Work list is scoped by role: staff get the whole store; for a
non-staff requester the result holds exactly the tickets assigned to them. -/
theorem c7_list_scoped_by_role (db : List Work) (u : User) :
    (u.is_staff = true → work_list_queryset db u = db) ∧
    (u.is_staff = false →
      ∀ w, w ∈ work_list_queryset db u ↔ (w ∈ db ∧ w.assignee = some u.id)) := by
  unfold work_list_queryset
  constructor
  · intro h; simp [h]
  · intro h w; simp [h, List.mem_filter]

theorem c7_witness :
    (⟨7, "t", WorkStatus.pending, some 2, none⟩ : Work) ∈
        work_list_queryset [⟨7, "t", WorkStatus.pending, some 2, none⟩,
          ⟨8, "s", WorkStatus.pending, some 9, none⟩] ⟨2, false⟩ ↔
      ((⟨7, "t", WorkStatus.pending, some 2, none⟩ : Work) ∈
          [⟨7, "t", WorkStatus.pending, some 2, none⟩,
            (⟨8, "s", WorkStatus.pending, some 9, none⟩ : Work)] ∧
        (⟨7, "t", WorkStatus.pending, some 2, none⟩ : Work).assignee = some 2) :=
  (c7_list_scoped_by_role
      [⟨7, "t", WorkStatus.pending, some 2, none⟩,
        ⟨8, "s", WorkStatus.pending, some 9, none⟩] ⟨2, false⟩).2 rfl
    ⟨7, "t", WorkStatus.pending, some 2, none⟩

/-- C3: `perform_update` and `perform_destroy` succeed only for staff or the
ticket's assignee; any other requester gets `permission_denied`, checked
before any mutation, and on any error outcome the store is unchanged. -/
theorem c3_mutation_requires_staff_or_assignee
    (u : User) (w : Work) (d : WorkUpdateData) (now : Nat)
    (db : List Work) (pk : Nat) :
    ((∃ w', perform_update u w d now = .ok w') →
      u.is_staff = true ∨ w.assignee = some u.id) ∧
    (¬(u.is_staff = true ∨ w.assignee = some u.id) →
      perform_update u w d now = .error .forbidden ∧
      perform_destroy u w db = .error .forbidden) ∧
    (∀ e db', update_work db u pk d now = (.error e, db') → db' = db) ∧
    (∀ e db', destroy_work db u pk = (.error e, db') → db' = db) := by
  refine ⟨?_, ?_, ?_, ?_⟩
  · rintro ⟨w', hw'⟩
    by_contra hc
    push_neg at hc
    obtain ⟨h1, h2⟩ := hc
    unfold perform_update at hw'
    rw [if_pos ⟨by simpa using h1, h2⟩] at hw'
    simp at hw'
  · intro hc
    push_neg at hc
    obtain ⟨h1, h2⟩ := hc
    constructor
    · unfold perform_update
      rw [if_pos ⟨by simpa using h1, h2⟩]
    · unfold perform_destroy
      rw [if_pos ⟨by simpa using h1, h2⟩]
  · intro e db' h
    unfold update_work at h
    split at h
    · injection h with h1 h2; exact h2.symm
    · split at h
      · injection h with h1 h2; exact h2.symm
      · injection h with h1 h2; injection h1
  · intro e db' h
    unfold destroy_work at h
    split at h
    · injection h with h1 h2; exact h2.symm
    · split at h
      · injection h with h1 h2; exact h2.symm
      · injection h with h1 h2; injection h1

theorem c3_witness :
    perform_update ⟨4, false⟩ ⟨7, "t", WorkStatus.pending, some 2, none⟩
        ⟨none, none⟩ 0 = .error .forbidden ∧
    perform_destroy ⟨4, false⟩ ⟨7, "t", WorkStatus.pending, some 2, none⟩ [] =
      .error .forbidden :=
  (c3_mutation_requires_staff_or_assignee ⟨4, false⟩
      ⟨7, "t", WorkStatus.pending, some 2, none⟩ ⟨none, none⟩ 0 [] 7).2.1
    (by decide)

/-- For a non-staff requester, any object found through the detail queryset
is assigned to that requester. -/
theorem get_object_nonstaff_assignee
    (db : List Work) (u : User) (pk : Nat) (w : Work)
    (hu : u.is_staff = false) (h : get_object db u pk = some w) :
    w.assignee = some u.id := by
  unfold get_object work_detail_queryset at h
  rw [hu] at h
  simp only [Bool.false_eq_true, if_false] at h
  have hmem := List.mem_of_find?_eq_some h
  rw [List.mem_filter] at hmem
  simpa using hmem.2

theorem get_object_nonstaff_assignee_witness :
    (⟨7, "t", WorkStatus.pending, some 2, none⟩ : Work).assignee = some 2 :=
  get_object_nonstaff_assignee [⟨7, "t", WorkStatus.pending, some 2, none⟩]
    ⟨2, false⟩ 7 ⟨7, "t", WorkStatus.pending, some 2, none⟩ rfl (by decide)

/-- C9: for a non-staff requester the detail queryset hides other users'
tickets, so retrieve/update/destroy of such a ticket give 404, and the
explicit 403 branches of `perform_update` / `perform_destroy` are
unreachable through the detail flows. -/
theorem c9_nonstaff_detail_scoping
    (db : List Work) (u : User) (pk : Nat) (d : WorkUpdateData) (now : Nat)
    (hu : u.is_staff = false) :
    ((∀ w ∈ db, w.id = pk → w.assignee ≠ some u.id) →
      retrieve_work db u pk = .error .notFound ∧
      update_work db u pk d now = (.error .notFound, db) ∧
      destroy_work db u pk = (.error .notFound, db)) ∧
    (update_work db u pk d now).1 ≠ .error .forbidden ∧
    (destroy_work db u pk).1 ≠ .error .forbidden := by
  constructor
  · intro hnone
    have hobj : get_object db u pk = none := by
      unfold get_object work_detail_queryset
      rw [hu]
      simp only [Bool.false_eq_true, if_false]
      rw [List.find?_eq_none]
      intro x hx
      rw [List.mem_filter] at hx
      have := hnone x hx.1
      simp only [decide_eq_true_eq] at hx ⊢
      intro hid
      exact absurd hx.2 (this hid)
    refine ⟨?_, ?_, ?_⟩ <;> simp [retrieve_work, update_work, destroy_work, hobj]
  · have hkey : ∀ w0, get_object db u pk = some w0 → w0.assignee = some u.id :=
      fun w0 h => get_object_nonstaff_assignee db u pk w0 hu h
    constructor
    · unfold update_work
      split
      · simp
      · rename_i w0 hobj
        have ha := hkey w0 hobj
        rcases hpu : perform_update u w0 d now with e0 | w'
        · exfalso
          unfold perform_update at hpu
          rw [if_neg (fun hcond => hcond.2 (by rw [ha]))] at hpu
          simp at hpu
        · simp [hpu]
    · unfold destroy_work
      split
      · simp
      · rename_i w0 hobj
        have ha := hkey w0 hobj
        rcases hpd : perform_destroy u w0 db with e0 | db0
        · exfalso
          unfold perform_destroy at hpd
          rw [if_neg (fun hcond => hcond.2 (by rw [ha]))] at hpd
          simp at hpd
        · simp [hpd]

theorem c9_witness :
    (retrieve_work [⟨7, "t", WorkStatus.pending, some 9, none⟩] ⟨2, false⟩ 7 =
        .error .notFound ∧
      update_work [⟨7, "t", WorkStatus.pending, some 9, none⟩] ⟨2, false⟩ 7
          ⟨none, none⟩ 0 =
        (.error .notFound, [⟨7, "t", WorkStatus.pending, some 9, none⟩]) ∧
      destroy_work [⟨7, "t", WorkStatus.pending, some 9, none⟩] ⟨2, false⟩ 7 =
        (.error .notFound, [⟨7, "t", WorkStatus.pending, some 9, none⟩])) :=
  (c9_nonstaff_detail_scoping [⟨7, "t", WorkStatus.pending, some 9, none⟩]
      ⟨2, false⟩ 7 ⟨none, none⟩ 0 rfl).1 (by decide)

/-- C2: a duplicate Like create for (user, content_type, object_id) yields
400 with the duplicate message and leaves the stored count at 1; a fresh
create yields 201 with the record and the derived content-type name. -/
theorem c2_like_create_duplicate_and_success
    (ctName : Nat → String) (db : List Like) (u ct oid newId : Nat) :
    (countLikes db u ct oid = 1 →
      like_create ctName db u ct oid newId =
        ((.badRequest "You have already liked this item."), db) ∧
      likeCreateStatus (like_create ctName db u ct oid newId).1 = 400 ∧
      countLikes (like_create ctName db u ct oid newId).2 u ct oid = 1) ∧
    (countLikes db u ct oid = 0 →
      (like_create ctName db u ct oid newId).1 =
        .created ⟨newId, u, ct, oid⟩ (ctName ct) ∧
      likeCreateStatus (like_create ctName db u ct oid newId).1 = 201) := by
  constructor
  · intro h1
    have hany : db.any
        (fun l => decide (l.user = u ∧ l.content_type = ct ∧ l.object_id = oid)) = true := by
      unfold countLikes at h1
      rw [List.any_eq_true]
      have hne : db.filter
          (fun l => decide (l.user = u ∧ l.content_type = ct ∧ l.object_id = oid)) ≠ [] := by
        intro he; rw [he] at h1; simp at h1
      obtain ⟨x, hx⟩ := List.exists_mem_of_ne_nil _ hne
      exact ⟨x, (List.mem_filter.mp hx).1, (List.mem_filter.mp hx).2⟩
    have hlc : like_create ctName db u ct oid newId =
        ((.badRequest "You have already liked this item."), db) := by
      unfold like_create
      rw [if_pos hany]
    exact ⟨hlc, by rw [hlc]; rfl, by rw [hlc]; exact h1⟩
  · intro h0
    have hany : db.any
        (fun l => decide (l.user = u ∧ l.content_type = ct ∧ l.object_id = oid)) = false := by
      unfold countLikes at h0
      rw [List.length_eq_zero, List.filter_eq_nil_iff] at h0
      rw [List.any_eq_false]
      intro x hx
      simpa using h0 x hx
    have hlc : like_create ctName db u ct oid newId =
        ((.created ⟨newId, u, ct, oid⟩ (ctName ct)),
          db ++ [⟨newId, u, ct, oid⟩]) := by
      unfold like_create
      rw [if_neg (by rw [hany]; exact Bool.false_ne_true)]
    exact ⟨by rw [hlc], by rw [hlc]; rfl⟩

theorem c2_witness :
    (like_create (fun _ => "order") [⟨1, 10, 2, 3⟩] 10 2 3 4 =
        ((.badRequest "You have already liked this item."), [⟨1, 10, 2, 3⟩]) ∧
      likeCreateStatus (like_create (fun _ => "order") [⟨1, 10, 2, 3⟩] 10 2 3 4).1 = 400 ∧
      countLikes (like_create (fun _ => "order") [⟨1, 10, 2, 3⟩] 10 2 3 4).2 10 2 3 = 1) :=
  (c2_like_create_duplicate_and_success (fun _ => "order")
      [⟨1, 10, 2, 3⟩] 10 2 3 4).1 (by decide)

/-- C8: only a Like's owner may destroy it: another user gets 403 and the
record is preserved; the owner gets 204 and the record is removed. -/
theorem c8_like_destroy_owner_only
    (db : List Like) (u pk : Nat) (l : Like)
    (hfind : db.find? (fun x => decide (x.id = pk)) = some l) :
    (l.user ≠ u →
      like_destroy db u pk = (.forbidden, db) ∧
      likeDestroyStatus (like_destroy db u pk).1 = 403 ∧
      l ∈ (like_destroy db u pk).2) ∧
    (l.user = u →
      like_destroy db u pk =
        (.noContent, db.filter (fun x => decide (x.id ≠ pk))) ∧
      likeDestroyStatus (like_destroy db u pk).1 = 204 ∧
      ∀ x ∈ (like_destroy db u pk).2, x.id ≠ pk) := by
  have hmem : l ∈ db := List.mem_of_find?_eq_some hfind
  constructor
  · intro hne
    have hlc : like_destroy db u pk = (.forbidden, db) := by
      simp only [like_destroy, hfind]
      rw [if_pos hne]
    exact ⟨hlc, by rw [hlc]; rfl, by rw [hlc]; exact hmem⟩
  · intro heq
    have hlc : like_destroy db u pk =
        (.noContent, db.filter (fun x => decide (x.id ≠ pk))) := by
      simp only [like_destroy, hfind]
      rw [if_neg (by simp [heq])]
    refine ⟨hlc, by rw [hlc]; rfl, ?_⟩
    rw [hlc]
    intro x hx
    simpa using (List.mem_filter.mp hx).2

theorem c8_witness :
    (like_destroy [⟨5, 10, 2, 3⟩] 99 5 = (.forbidden, [⟨5, 10, 2, 3⟩]) ∧
      likeDestroyStatus (like_destroy [⟨5, 10, 2, 3⟩] 99 5).1 = 403 ∧
      (⟨5, 10, 2, 3⟩ : Like) ∈ (like_destroy [⟨5, 10, 2, 3⟩] 99 5).2) :=
  (c8_like_destroy_owner_only [⟨5, 10, 2, 3⟩] 99 5 ⟨5, 10, 2, 3⟩
      (by decide)).1 (by decide)

end ProOrder
